import Mathlib

/-!
Shallow embedding of the OpenPilot CopterControl attitude estimation module
(`src/flight/Modules/Attitude/attitude.c`).  Floating-point values are
modelled as real numbers; the 32-bit tick counter is modelled as a natural
number reduced modulo 2^32 where the source wraps.
-/

namespace Attitude

/-- Three-component float vector (the source's `float v[3]`). -/
structure Vec3 where
  x : ℝ
  y : ℝ
  z : ℝ

/-- Quaternion `float q[4]` with the source's (w,x,y,z) component order. -/
structure Quat where
  q0 : ℝ
  q1 : ℝ
  q2 : ℝ
  q3 : ℝ

/-- 3x3 rotation matrix `float R[3][3]`, stored as rows. -/
structure Mat3 where
  r0 : Vec3
  r1 : Vec3
  r2 : Vec3

/-- Dot product of two 3-vectors. -/
noncomputable def dot (a b : Vec3) : ℝ :=
  a.x * b.x + a.y * b.y + a.z * b.z

/-- `CrossProduct(a, b, out)` from CoordinateConversions: out = a x b. -/
noncomputable def CrossProduct (a b : Vec3) : Vec3 :=
  ⟨a.y * b.z - a.z * b.y, a.z * b.x - a.x * b.z, a.x * b.y - a.y * b.x⟩

/-- `rot_mult(R, vec, vec_out)`: matrix-vector product. -/
noncomputable def rot_mult (M : Mat3) (v : Vec3) : Vec3 :=
  ⟨dot M.r0 v, dot M.r1 v, dot M.r2 v⟩

/-- `#define GYRO_NEUTRAL 1665` -/
noncomputable def GYRO_NEUTRAL : ℝ := 1665

/-- `portTICK_RATE_MS` for the 1000 Hz FreeRTOS tick used on CopterControl. -/
noncomputable def portTICK_RATE_MS : ℝ := 1

/-- Alarm levels of the `Attitude` system alarm used by this module. -/
inductive AlarmLevel where
  | OK
  | Warning
  | Error
  | Critical
deriving DecidableEq

/-- The two failure modes of `updateSensors` (both return `-1` in C). -/
inductive SensorFail where
  | SensorTimeout
  | AccelEmpty
deriving DecidableEq

/-- The module's file-scope mutable state together with the task-local
`init` flag and the current Attitude alarm level. -/
structure AttitudeState where
  q : Quat
  gyro_correct_int : Vec3
  accelKi : ℝ
  accelKp : ℝ
  yawBiasRate : ℝ
  gyroGain : ℝ
  accelbias0 : ℤ
  accelbias1 : ℤ
  accelbias2 : ℤ
  R : Mat3
  rotate : Bool
  zero_during_arming : Bool
  bias_correct_gyro : Bool
  lastSysTime : ℕ
  init : Bool
  alarm : AlarmLevel

/-- One gyro queue entry: `[temp, rawX, rawY, rawZ]` as four floats. -/
structure GyroSample where
  temp : ℝ
  g1 : ℝ
  g2 : ℝ
  g3 : ℝ

/-- One accelerometer FIFO entry (`struct pios_adxl345_data`), int16 fields. -/
structure Adxl345Data where
  x : ℤ
  y : ℤ
  z : ℤ

/-- Result of the accel FIFO drain loop: accumulated sums, the loop counter
`i`, and the last `samples_remaining` value. -/
structure DrainResult where
  x : ℤ
  y : ℤ
  z : ℤ
  i : ℕ
  samples_remaining : ℕ
deriving DecidableEq

/-- The `do { ... } while ((i < 32) && (samples_remaining > 0))` drain loop of
`updateSensors`.  The FIFO is a list; each `PIOS_ADXL345_Read` pops one entry
and reports the number of remaining entries. -/
def drainLoop : List Adxl345Data → ℕ → ℤ → ℤ → ℤ → DrainResult
  | [], i, x, y, z => ⟨x, y, z, i, 0⟩
  | d :: rest, i, x, y, z =>
      let i2 := i + 1
      let x2 := x + d.x
      let y2 := y + (-d.y)
      let z2 := z + (-d.z)
      if i2 < 32 ∧ rest.length > 0 then drainLoop rest i2 x2 y2 z2
      else ⟨x2, y2, z2, i2, rest.length⟩

/-- The `AttitudeRaw` fields written by `updateSensors` (the `gyrotemp` floats
carry the FIFO diagnostics `samples_remaining` and the sample count `i`). -/
structure AttitudeRawData where
  gyros : Vec3
  accels : Vec3
  gyrotemp0 : ℕ
  gyrotemp1 : ℕ

/-- Sign/axis mapping of the raw gyro counts (lines 242-244):
`gx = -(raw1-1665)*gyroGain`, `gy = (raw2-1665)*gyroGain`,
`gz = -(raw3-1665)*gyroGain`. -/
noncomputable def mapGyros (st : AttitudeState) (g : GyroSample) : Vec3 :=
  ⟨-(g.g1 - GYRO_NEUTRAL) * st.gyroGain,
   (g.g2 - GYRO_NEUTRAL) * st.gyroGain,
   -(g.g3 - GYRO_NEUTRAL) * st.gyroGain⟩

/-- Averaged accelerometer reading `{x/i, y/i, z/i}` from the drain loop. -/
noncomputable def avgAccel (fifo : List Adxl345Data) : Vec3 :=
  let d := drainLoop fifo 0 0 0 0
  ⟨(d.x : ℝ) / (d.i : ℝ), (d.y : ℝ) / (d.i : ℝ), (d.z : ℝ) / (d.i : ℝ)⟩

/-- Accel vector after the optional board rotation (lines 263-278). -/
noncomputable def rotatedAccel (st : AttitudeState) (fifo : List Adxl345Data) : Vec3 :=
  if st.rotate then rot_mult st.R (avgAccel fifo) else avgAccel fifo

/-- Gyro vector after the optional board rotation. -/
noncomputable def rotatedGyros (st : AttitudeState) (g : GyroSample) : Vec3 :=
  if st.rotate then rot_mult st.R (mapGyros st g) else mapGyros st g

/-- The published accels: bias subtraction and scaling to m/s^2 applied to the
(possibly rotated) average (lines 281-283). -/
noncomputable def sensedAccels (st : AttitudeState) (fifo : List Adxl345Data) : Vec3 :=
  let a := rotatedAccel st fifo
  ⟨(a.x - (st.accelbias0 : ℝ)) * 0.004 * 9.81,
   (a.y - (st.accelbias1 : ℝ)) * 0.004 * 9.81,
   (a.z - (st.accelbias2 : ℝ)) * 0.004 * 9.81⟩

/-- The published gyros: running bias correction added when
`bias_correct_gyro` is set (lines 285-290). -/
noncomputable def sensedGyros (st : AttitudeState) (g : GyroSample) : Vec3 :=
  let v := rotatedGyros st g
  if st.bias_correct_gyro then
    ⟨v.x + st.gyro_correct_int.x, v.y + st.gyro_correct_int.y,
     v.z + st.gyro_correct_int.z⟩
  else v

/-- `updateSensors` (lines 226-297).  Input: the gyro queue receive result
(`none` models `errQUEUE_EMPTY`) and the accel FIFO contents.  Output: the
populated `AttitudeRaw` data (or the failure) and the updated module state;
the timeout path raises the Error alarm, the yaw-bias pull updates
`gyro_correct_int[2]` from the published Z gyro of this cycle (line 294). -/
noncomputable def updateSensors (st : AttitudeState) (gq : Option GyroSample)
    (fifo : List Adxl345Data) : Except SensorFail AttitudeRawData × AttitudeState :=
  match gq with
  | none => (.error .SensorTimeout, { st with alarm := .Error })
  | some g =>
      if fifo.length = 0 then (.error .AccelEmpty, st)
      else
        let d := drainLoop fifo 0 0 0 0
        let gyros := sensedGyros st g
        let accels := sensedAccels st fifo
        let bias2 := st.gyro_correct_int.z + -gyros.z * st.yawBiasRate
        (.ok ⟨gyros, accels, d.samples_remaining, d.i⟩,
         { st with gyro_correct_int := ⟨st.gyro_correct_int.x, st.gyro_correct_int.y, bias2⟩ })

/-- The time step of `updateAttitude` (line 305): 0.001 s when the tick did
not advance, otherwise the 32-bit wrapping tick difference (the source's
`portMAX_DELAY & (thisSysTime - lastSysTime)` on a 32-bit `portTickType`)
converted to seconds. -/
noncomputable def computeDT (lastSysTime thisSysTime : ℕ) : ℝ :=
  if thisSysTime = lastSysTime then 0.001
  else (((thisSysTime + 2 ^ 32 - lastSysTime) % 2 ^ 32 : ℕ) : ℝ) / portTICK_RATE_MS / 1000

/-- `grot`, the body-frame down vector derived from q (lines 321-323). -/
noncomputable def grotOf (q : Quat) : Vec3 :=
  ⟨-(2 * (q.q1 * q.q3 - q.q0 * q.q2)),
   -(2 * (q.q2 * q.q3 + q.q0 * q.q1)),
   -(q.q0 * q.q0 - q.q1 * q.q1 - q.q2 * q.q2 + q.q3 * q.q3)⟩

/-- `accel_err` after the cross product and the stretch to length
`error_phi = acos(accels . grot)` (lines 325-335); the stretch is skipped
when the cross product has zero magnitude. -/
noncomputable def accelErrRaw (q : Quat) (accels : Vec3) : Vec3 :=
  let grot := grotOf q
  let e := CrossProduct accels grot
  let error_phi := Real.arccos (dot accels grot)
  let accel_err_mag := Real.sqrt (e.x * e.x + e.y * e.y + e.z * e.z)
  if accel_err_mag > 0 then
    ⟨e.x * (error_phi / accel_err_mag), e.y * (error_phi / accel_err_mag),
     e.z * (error_phi / accel_err_mag)⟩
  else e

/-- The linear-acceleration rejection (lines 350-369): zero the error when
`accel_mag <= 9.8` or `accel_mag > 1.5*9.8`; otherwise shrink each component
by `accel_err[k] -= accel_err[k] * acos(9.8/accel_mag) / length`, skipped
when `length` is zero. -/
noncomputable def rejectAccelErr (accel_err accels : Vec3) : Vec3 :=
  let accel_mag := Real.sqrt (accels.x * accels.x + accels.y * accels.y + accels.z * accels.z)
  if accel_mag ≤ 9.8 ∨ accel_mag > 1.5 * 9.8 then ⟨0, 0, 0⟩
  else
    let displacement := Real.arccos (9.8 / accel_mag)
    let length := Real.sqrt (accel_err.x * accel_err.x + accel_err.y * accel_err.y +
      accel_err.z * accel_err.z)
    if length > 0 then
      ⟨accel_err.x - accel_err.x * displacement / length,
       accel_err.y - accel_err.y * displacement / length,
       accel_err.z - accel_err.z * displacement / length⟩
    else accel_err

/-- The final `accel_err` used for bias integration and rate correction. -/
noncomputable def accelErrFinal (q : Quat) (accels : Vec3) : Vec3 :=
  rejectAccelErr (accelErrRaw q accels) accels

/-- Norm of a quaternion, the source's `sqrt(q0*q0+q1*q1+q2*q2+q3*q3)`. -/
noncomputable def qnorm (q : Quat) : ℝ :=
  Real.sqrt (q.q0 * q.q0 + q.q1 * q.q1 + q.q2 * q.q2 + q.q3 * q.q3)

/-- The quaternion after the rate correction and the Euler time step
(lines 378-396), before the hemisphere fix and renormalization. -/
noncomputable def propagatedQuat (st : AttitudeState) (thisSysTime : ℕ)
    (raw : AttitudeRawData) : Quat :=
  let dT := computeDT st.lastSysTime thisSysTime
  let accel_err := accelErrFinal st.q raw.accels
  let gx := raw.gyros.x + accel_err.x * st.accelKp / dT
  let gy := raw.gyros.y + accel_err.y * st.accelKp / dT
  let gz := raw.gyros.z + accel_err.z * st.accelKp / dT
  let q := st.q
  let qdot0 := (-q.q1 * gx - q.q2 * gy - q.q3 * gz) * dT * Real.pi / 180 / 2
  let qdot1 := (q.q0 * gx - q.q3 * gy + q.q2 * gz) * dT * Real.pi / 180 / 2
  let qdot2 := (q.q3 * gx + q.q0 * gy - q.q1 * gz) * dT * Real.pi / 180 / 2
  let qdot3 := (-q.q2 * gx + q.q1 * gy + q.q0 * gz) * dT * Real.pi / 180 / 2
  ⟨q.q0 + qdot0, q.q1 + qdot1, q.q2 + qdot2, q.q3 + qdot3⟩

/-- Hemisphere fix, renormalization and defensive re-init (lines 398-420);
in the real-number model the `qmag != qmag` NaN test is never true. -/
noncomputable def hemiNormalize (p : Quat) : Quat :=
  let h : Quat := if p.q0 < 0 then ⟨-p.q0, -p.q1, -p.q2, -p.q3⟩ else p
  let qmag := qnorm h
  let qdiv : Quat := ⟨h.q0 / qmag, h.q1 / qmag, h.q2 / qmag, h.q3 / qmag⟩
  if |qmag| < 1e-3 ∨ qmag ≠ qmag then ⟨1, 0, 0, 0⟩ else qdiv

/-- `updateAttitude` (lines 299-431): time step, gravity-reference error,
bias integration on indices 0 and 1, rate correction, quaternion propagation,
hemisphere fix, renormalization and defensive re-init. -/
noncomputable def updateAttitude (st : AttitudeState) (thisSysTime : ℕ)
    (raw : AttitudeRawData) : AttitudeState :=
  let accel_err := accelErrFinal st.q raw.accels
  { st with q := hemiNormalize (propagatedQuat st thisSysTime raw),
            gyro_correct_int := ⟨st.gyro_correct_int.x + accel_err.x * st.accelKi,
                                 st.gyro_correct_int.y + accel_err.y * st.accelKi,
                                 st.gyro_correct_int.z⟩,
            lastSysTime := thisSysTime }

/-- The settings fields reloaded by the `init == 0` branch of the task loop. -/
structure Settings where
  accelKi : ℝ
  accelKp : ℝ
  yawBiasRate : ℝ

/-- The forced high startup gains (lines 187-190 / 193-196). -/
noncomputable def forceStartupGains (st : AttitudeState) : AttitudeState :=
  { st with accelKp := 1, accelKi := 0.9, yawBiasRate := 0.23, init := false }

/-- The gain policy at the top of the task loop (lines 185-203). `arming`
models `flightStatus.Armed == FLIGHTSTATUS_ARMED_ARMING`. -/
noncomputable def gainPolicy (tick : ℕ) (arming : Bool) (s : Settings)
    (st : AttitudeState) : AttitudeState :=
  if tick < 7000 ∧ tick > 1000 then forceStartupGains st
  else if st.zero_during_arming = true ∧ arming = true then forceStartupGains st
  else if st.init = false then
    { st with accelKi := s.accelKi, accelKp := s.accelKp,
              yawBiasRate := s.yawBiasRate, init := true }
  else st

/-- One iteration of the main task loop (lines 180-218): gain policy, then
`updateSensors`; on failure set the Attitude alarm to Error, on success run
`updateAttitude` and clear the alarm.  Both `xTaskGetTickCount` reads of the
iteration are modelled by the same `tick`. -/
noncomputable def taskCycle (tick : ℕ) (arming : Bool) (s : Settings)
    (gq : Option GyroSample) (fifo : List Adxl345Data)
    (st : AttitudeState) : AttitudeState :=
  let st1 := gainPolicy tick arming s st
  let r := updateSensors st1 gq fifo
  match r.1 with
  | .error _ => { r.2 with alarm := .Error }
  | .ok raw => { updateAttitude r.2 tick raw with alarm := .OK }

/-- Modelled from the spec: the conditioning order asserted in spec section 2
("subtract accelerometer bias and scale to m/s^2, apply optional board
rotation"), under which `R` would act on bias-corrected, scaled values.  Used
only to compare against the source's `sensedAccels`. -/
noncomputable def specOrderAccels (st : AttitudeState) (fifo : List Adxl345Data) : Vec3 :=
  let a := avgAccel fifo
  let s : Vec3 := ⟨(a.x - (st.accelbias0 : ℝ)) * 0.004 * 9.81,
                   (a.y - (st.accelbias1 : ℝ)) * 0.004 * 9.81,
                   (a.z - (st.accelbias2 : ℝ)) * 0.004 * 9.81⟩
  if st.rotate then rot_mult st.R s else s

/-! Concrete exemplar values used to instantiate theorems. -/

/-- Identity rotation matrix. -/
noncomputable def idMat : Mat3 := ⟨⟨1, 0, 0⟩, ⟨0, 1, 0⟩, ⟨0, 0, 1⟩⟩

/-- A 90-degree rotation about the Z axis. -/
noncomputable def rz90 : Mat3 := ⟨⟨0, -1, 0⟩, ⟨1, 0, 0⟩, ⟨0, 0, 1⟩⟩

/-- A concrete module state. -/
noncomputable def st0 : AttitudeState where
  q := ⟨1, 0, 0, 0⟩
  gyro_correct_int := ⟨0, 0, 0⟩
  accelKi := 0
  accelKp := 0
  yawBiasRate := 0
  gyroGain := 0.42
  accelbias0 := 0
  accelbias1 := 0
  accelbias2 := 0
  R := idMat
  rotate := false
  zero_during_arming := false
  bias_correct_gyro := true
  lastSysTime := 0
  init := false
  alarm := .OK

/-- A concrete state with a nontrivial board rotation and accel bias. -/
noncomputable def stR : AttitudeState :=
  { st0 with rotate := true, R := rz90, accelbias0 := 1 }

/-- A concrete gyro queue sample at the neutral count. -/
noncomputable def g0 : GyroSample := ⟨0, 1665, 1665, 1665⟩

/-- A concrete accelerometer FIFO entry. -/
def d0 : Adxl345Data := ⟨0, 0, 0⟩

/-! Theorems. -/

/-- The drain loop, entered with a nonempty FIFO and counter below 32,
increments the counter at least once and never beyond 32. -/
theorem drainLoop_i_bounds (fifo : List Adxl345Data) :
    ∀ (i : ℕ) (x y z : ℤ), fifo ≠ [] → i < 32 →
      i + 1 ≤ (drainLoop fifo i x y z).i ∧ (drainLoop fifo i x y z).i ≤ 32 := by
  induction fifo with
  | nil => intro i x y z h _; exact absurd rfl h
  | cons d rest ih =>
      intro i x y z _ hi
      simp only [drainLoop]
      by_cases hc : i + 1 < 32 ∧ rest.length > 0
      · rw [if_pos hc]
        have hrest : rest ≠ [] := by
          intro hnil
          rw [hnil] at hc
          simp at hc
        have := ih (i + 1) (x + d.x) (y + -d.y) (z + -d.z) hrest hc.1
        omega
      · rw [if_neg hc]
        exact ⟨le_refl _, show i + 1 ≤ 32 by omega⟩

/-- Claim C10: because the FIFO-empty early return guarantees at least one
entry, the do-while drain loop runs at least once, so the divisor `i` (also
published as `gyrotemp[1]`) satisfies `1 <= i <= 32` and the averaging
divisions are never by zero. -/
theorem C10_drain_count (st : AttitudeState) (g : GyroSample) (d : Adxl345Data)
    (rest : List Adxl345Data) :
    1 ≤ (drainLoop (d :: rest) 0 0 0 0).i ∧
    (drainLoop (d :: rest) 0 0 0 0).i ≤ 32 ∧
    ((drainLoop (d :: rest) 0 0 0 0).i : ℝ) ≠ 0 ∧
    (updateSensors st (some g) (d :: rest)).1.map AttitudeRawData.gyrotemp1 =
      .ok (drainLoop (d :: rest) 0 0 0 0).i := by
  obtain ⟨h1, h2⟩ :=
    drainLoop_i_bounds (d :: rest) 0 0 0 0 (by simp) (by norm_num)
  refine ⟨h1, h2, ?_, ?_⟩
  · have : (drainLoop (d :: rest) 0 0 0 0).i ≠ 0 := by omega
    exact_mod_cast this
  · simp [updateSensors, Except.map]

/-- Claim C8: the time step is always strictly positive when both tick values
are in the 32-bit range: equal ticks yield 0.001 s and distinct ticks yield a
nonzero wrapped difference, so the `accel_kp / dT` divisions never divide by
zero. -/
theorem C8_dT_pos (last this : ℕ) (h1 : last < 2 ^ 32) (h2 : this < 2 ^ 32) :
    0 < computeDT last this ∧ computeDT last this ≠ 0 := by
  have key : 0 < computeDT last this := by
    unfold computeDT
    by_cases h : this = last
    · rw [if_pos h]; norm_num
    · rw [if_neg h]
      have hexp : (2 : ℕ) ^ 32 = 4294967296 := by norm_num
      have hm : (this + 2 ^ 32 - last) % 2 ^ 32 ≠ 0 := by
        rw [hexp] at h1 h2 ⊢
        omega
      have hcast : (0 : ℝ) < (((this + 2 ^ 32 - last) % 2 ^ 32 : ℕ) : ℝ) := by
        exact_mod_cast Nat.pos_of_ne_zero hm
      rw [portTICK_RATE_MS]
      positivity
  exact ⟨key, key.ne'⟩

/-- Witness for C8 at concrete tick values (equal and distinct). -/
theorem C8_dT_pos_witness :
    (0 < computeDT 5 5 ∧ computeDT 5 5 ≠ 0) ∧
    (0 < computeDT 5 7 ∧ computeDT 5 7 ≠ 0) :=
  ⟨C8_dT_pos 5 5 (by norm_num) (by norm_num),
   C8_dT_pos 5 7 (by norm_num) (by norm_num)⟩

/-- Counterexample to claim C3: at tick count 7000 (and arming false) the
source's strict comparison `xTaskGetTickCount() < 7000` rejects the forced
branch, so the gains are not forced to 1 / 0.9 / 0.23 and `init` is not kept
false: with `init` already true the state is returned unchanged. -/
theorem C3_counterexample :
    (gainPolicy 7000 false ⟨0, 0, 0⟩ { st0 with init := true, accelKp := 5 }).accelKp = 5 ∧
    (gainPolicy 7000 false ⟨0, 0, 0⟩ { st0 with init := true, accelKp := 5 }).init = true ∧
    (5 : ℝ) ≠ 1 := by
  refine ⟨?_, ?_, by norm_num⟩ <;>
    simp [gainPolicy, st0, forceStartupGains]

/-- Claim C3 amended: the forced high startup gains `accel_kp=1`,
`accel_ki=0.9`, `yaw_bias_rate=0.23` (with `init` kept false) are applied
exactly when the tick count lies in the OPEN interval (1000, 7000); outside
that window, with the arming condition false, the branch is not taken and the
task either reloads the configured gains (when `init` is false) or leaves the
state unchanged. -/
theorem C3_startup_window (tick : ℕ) (arming : Bool) (s : Settings)
    (st : AttitudeState) :
    (1000 < tick ∧ tick < 7000 →
      gainPolicy tick arming s st = forceStartupGains st) ∧
    (¬(1000 < tick ∧ tick < 7000) → arming = false →
      gainPolicy tick arming s st =
        if st.init = false then
          { st with accelKi := s.accelKi, accelKp := s.accelKp,
                    yawBiasRate := s.yawBiasRate, init := true }
        else st) := by
  constructor
  · intro h
    unfold gainPolicy
    rw [if_pos ⟨h.2, h.1⟩]
  · intro h harm
    unfold gainPolicy
    rw [if_neg (by omega : ¬(tick < 7000 ∧ tick > 1000)),
        if_neg (by simp [harm])]

/-- Witness for the amended C3 at tick 2000 (inside the window) and tick 8000
(outside it). -/
theorem C3_startup_window_witness :
    gainPolicy 2000 false ⟨0, 0, 0⟩ st0 = forceStartupGains st0 ∧
    gainPolicy 8000 false ⟨0, 0, 0⟩ st0 =
      (if st0.init = false then
        { st0 with accelKi := (⟨0, 0, 0⟩ : Settings).accelKi,
                   accelKp := (⟨0, 0, 0⟩ : Settings).accelKp,
                   yawBiasRate := (⟨0, 0, 0⟩ : Settings).yawBiasRate,
                   init := true }
      else st0) :=
  ⟨(C3_startup_window 2000 false ⟨0, 0, 0⟩ st0).1 (by norm_num),
   (C3_startup_window 8000 false ⟨0, 0, 0⟩ st0).2 (by norm_num) rfl⟩

/-- Counterexample to claim C1: with the gyro sample present and the accel
FIFO empty, a task cycle starting from a cleared Attitude alarm raises the
alarm to Error, because the task sets the Error alarm on any nonzero
`updateSensors` return; the alarm level does change. -/
theorem C1_counterexample :
    st0.alarm = AlarmLevel.OK ∧
    (taskCycle 5000 false ⟨0, 0, 0⟩ (some g0) [] st0).alarm = AlarmLevel.Error := by
  constructor
  · rfl
  · simp [taskCycle, updateSensors, gainPolicy, forceStartupGains]

/-- Claim C1 amended: when `updateSensors` fails with `AccelEmpty`,
`updateSensors` itself changes no alarm (unlike the timeout path) and the
module state is untouched, but the task loop then raises the Attitude alarm
to Error because the nonzero return code is handled uniformly; fusion is
skipped, so the quaternion is unchanged by the cycle. -/
theorem C1_accel_empty (st : AttitudeState) (g : GyroSample) (tick : ℕ)
    (arming : Bool) (s : Settings) :
    (updateSensors st (some g) []).1 = .error .AccelEmpty ∧
    (updateSensors st (some g) []).2 = st ∧
    (taskCycle tick arming s (some g) [] st).alarm = AlarmLevel.Error ∧
    (taskCycle tick arming s (some g) [] st).q = st.q := by
    refine ⟨rfl, rfl, ?_, ?_⟩ <;>
      · simp only [taskCycle, updateSensors, List.length_nil]
        unfold gainPolicy
        split_ifs <;> rfl

/-- Claim C6: with `bias_correct_gyro` enabled, the yaw-bias update feeds the
just-applied correction back into itself: the new `gyro_correct_int[2]` is
the old value minus `(gz + old) * yawBiasRate`, where `gz` is the sensed
(rotated, pre-correction) Z gyro of this cycle. -/
theorem C6_yaw_bias_feedback (st : AttitudeState) (g : GyroSample)
    (d : Adxl345Data) (rest : List Adxl345Data)
    (h : st.bias_correct_gyro = true) :
    (updateSensors st (some g) (d :: rest)).2.gyro_correct_int.z =
      st.gyro_correct_int.z -
        ((rotatedGyros st g).z + st.gyro_correct_int.z) * st.yawBiasRate := by
  simp only [updateSensors, sensedGyros, h, if_true, List.length_cons]
  norm_num
  ring

/-- Witness for C6 at a concrete state with `bias_correct_gyro` set. -/
theorem C6_yaw_bias_feedback_witness :
    (updateSensors st0 (some g0) [d0]).2.gyro_correct_int.z =
      st0.gyro_correct_int.z -
        ((rotatedGyros st0 g0).z + st0.gyro_correct_int.z) * st0.yawBiasRate :=
  C6_yaw_bias_feedback st0 g0 d0 [] rfl

/-- Claim C7: a successful `updateSensors` leaves `q`, `gyro_correct_int[0]`,
`gyro_correct_int[1]`, `R` and `rotate` unchanged and only rewrites
`gyro_correct_int[2]`, while `updateAttitude` adds `accel_err[i] * accelKi`
to `gyro_correct_int[0]` and `[1]` and never writes `gyro_correct_int[2]`. -/
theorem C7_bias_partition (st : AttitudeState) (g : GyroSample)
    (d : Adxl345Data) (rest : List Adxl345Data) (t : ℕ)
    (raw : AttitudeRawData) :
    ((updateSensors st (some g) (d :: rest)).2.q = st.q ∧
     (updateSensors st (some g) (d :: rest)).2.gyro_correct_int.x =
       st.gyro_correct_int.x ∧
     (updateSensors st (some g) (d :: rest)).2.gyro_correct_int.y =
       st.gyro_correct_int.y ∧
     (updateSensors st (some g) (d :: rest)).2.R = st.R ∧
     (updateSensors st (some g) (d :: rest)).2.rotate = st.rotate ∧
     (updateSensors st (some g) (d :: rest)).2.gyro_correct_int.z =
       st.gyro_correct_int.z + -(sensedGyros st g).z * st.yawBiasRate) ∧
    ((updateAttitude st t raw).gyro_correct_int.x =
       st.gyro_correct_int.x + (accelErrFinal st.q raw.accels).x * st.accelKi ∧
     (updateAttitude st t raw).gyro_correct_int.y =
       st.gyro_correct_int.y + (accelErrFinal st.q raw.accels).y * st.accelKi ∧
     (updateAttitude st t raw).gyro_correct_int.z = st.gyro_correct_int.z) :=
  ⟨⟨rfl, rfl, rfl, rfl, rfl, rfl⟩, rfl, rfl, rfl⟩

/-- Claim C4: for every accelerometer input, the rejection stage zeroes all
three error components when `a_mag <= 9.8` (the boundary included) or
`a_mag > 1.5*9.8`, and otherwise shrinks each component subtractively by
`err -= err * acos(9.8/a_mag) / length`, skipping the shrink when the error
length is zero. -/
theorem C4_rejection_cases (e a : Vec3) :
    ((Real.sqrt (a.x * a.x + a.y * a.y + a.z * a.z) ≤ 9.8 ∨
      Real.sqrt (a.x * a.x + a.y * a.y + a.z * a.z) > 1.5 * 9.8) →
      rejectAccelErr e a = ⟨0, 0, 0⟩) ∧
    (¬(Real.sqrt (a.x * a.x + a.y * a.y + a.z * a.z) ≤ 9.8 ∨
       Real.sqrt (a.x * a.x + a.y * a.y + a.z * a.z) > 1.5 * 9.8) →
      rejectAccelErr e a =
        if Real.sqrt (e.x * e.x + e.y * e.y + e.z * e.z) > 0 then
          ⟨e.x - e.x * Real.arccos (9.8 / Real.sqrt (a.x * a.x + a.y * a.y + a.z * a.z)) /
             Real.sqrt (e.x * e.x + e.y * e.y + e.z * e.z),
           e.y - e.y * Real.arccos (9.8 / Real.sqrt (a.x * a.x + a.y * a.y + a.z * a.z)) /
             Real.sqrt (e.x * e.x + e.y * e.y + e.z * e.z),
           e.z - e.z * Real.arccos (9.8 / Real.sqrt (a.x * a.x + a.y * a.y + a.z * a.z)) /
             Real.sqrt (e.x * e.x + e.y * e.y + e.z * e.z)⟩
        else e) := by
  constructor
  · intro h
    unfold rejectAccelErr
    rw [if_pos h]
  · intro h
    unfold rejectAccelErr
    rw [if_neg h]

/-- Witness for C4: a vanishing accel vector falls in the zeroing branch. -/
theorem C4_rejection_cases_witness :
    rejectAccelErr ⟨1, 2, 3⟩ ⟨0, 0, 0⟩ = ⟨0, 0, 0⟩ :=
  (C4_rejection_cases ⟨1, 2, 3⟩ ⟨0, 0, 0⟩).1
    (Or.inl (by norm_num [Real.sqrt_zero]))

/-- Dividing a quaternion componentwise by its (positive) norm yields a unit
quaternion. -/
theorem qnorm_div_self (h : Quat) (m : ℝ) (hm : qnorm h = m) (hpos : 0 < m) :
    qnorm ⟨h.q0 / m, h.q1 / m, h.q2 / m, h.q3 / m⟩ = 1 := by
  have hnn : 0 ≤ h.q0 * h.q0 + h.q1 * h.q1 + h.q2 * h.q2 + h.q3 * h.q3 := by
    nlinarith [mul_self_nonneg h.q0, mul_self_nonneg h.q1,
               mul_self_nonneg h.q2, mul_self_nonneg h.q3]
  have hS : h.q0 * h.q0 + h.q1 * h.q1 + h.q2 * h.q2 + h.q3 * h.q3 = m * m := by
    rw [← hm]
    exact (Real.mul_self_sqrt hnn).symm
  show Real.sqrt (h.q0 / m * (h.q0 / m) + h.q1 / m * (h.q1 / m) +
      h.q2 / m * (h.q2 / m) + h.q3 / m * (h.q3 / m)) = 1
  have hexp : h.q0 / m * (h.q0 / m) + h.q1 / m * (h.q1 / m) +
      h.q2 / m * (h.q2 / m) + h.q3 / m * (h.q3 / m) =
      (h.q0 * h.q0 + h.q1 * h.q1 + h.q2 * h.q2 + h.q3 * h.q3) / (m * m) := by
    ring
  rw [hexp, hS, div_self (mul_pos hpos hpos).ne', Real.sqrt_one]

/-- The hemisphere fix plus renormalization always yields a unit quaternion
with nonnegative scalar part (in the real model the defensive re-init to
identity also satisfies both). -/
theorem hemiNormalize_props (p : Quat) :
    qnorm (hemiNormalize p) = 1 ∧ 0 ≤ (hemiNormalize p).q0 := by
  unfold hemiNormalize
  set h : Quat := if p.q0 < 0 then ⟨-p.q0, -p.q1, -p.q2, -p.q3⟩ else p with hdef
  have h0 : 0 ≤ h.q0 := by
    rw [hdef]
    split_ifs with hp
    · show 0 ≤ -p.q0
      linarith
    · exact not_lt.mp hp
  by_cases hc : |qnorm h| < 1e-3 ∨ qnorm h ≠ qnorm h
  · rw [if_pos hc]
    constructor
    · show Real.sqrt (1 * 1 + 0 * 0 + 0 * 0 + 0 * 0) = 1
      norm_num [Real.sqrt_one]
    · show (0 : ℝ) ≤ 1
      norm_num
  · rw [if_neg hc]
    push_neg at hc
    have hnn : 0 ≤ qnorm h := Real.sqrt_nonneg _
    have hpos : 0 < qnorm h := by
      have := hc.1
      rw [abs_of_nonneg hnn] at this
      linarith
    constructor
    · exact qnorm_div_self h (qnorm h) rfl hpos
    · show 0 ≤ h.q0 / qnorm h
      exact div_nonneg h0 hnn

/-- Claim C5: after every completed `updateAttitude` step the stored
quaternion has norm within [0.999, 1.001] (in the real model it is exactly 1,
also after the defensive re-init) and a nonnegative scalar component. -/
theorem C5_q_invariant (st : AttitudeState) (t : ℕ) (raw : AttitudeRawData) :
    0.999 ≤ qnorm (updateAttitude st t raw).q ∧
    qnorm (updateAttitude st t raw).q ≤ 1.001 ∧
    0 ≤ (updateAttitude st t raw).q.q0 := by
  have hq : (updateAttitude st t raw).q =
      hemiNormalize (propagatedQuat st t raw) := rfl
  obtain ⟨h1, h2⟩ := hemiNormalize_props (propagatedQuat st t raw)
  rw [hq, h1]
  exact ⟨by norm_num, by norm_num, h2⟩

/-- At the identity quaternion and an accel input of magnitude exactly
1.5*9.8 along X, the stretched error vector is (0, pi/2, 0). -/
theorem accelErrRaw_at_boundary :
    accelErrRaw ⟨1, 0, 0, 0⟩ ⟨1.5 * 9.8, 0, 0⟩ = ⟨0, Real.pi / 2, 0⟩ := by
  have hgrot : grotOf ⟨1, 0, 0, 0⟩ = ⟨0, 0, -1⟩ := by
    norm_num [grotOf, Vec3.mk.injEq]
  have hcross : CrossProduct ⟨1.5 * 9.8, 0, 0⟩ ⟨0, 0, -1⟩ = ⟨0, 1.5 * 9.8, 0⟩ := by
    norm_num [CrossProduct, Vec3.mk.injEq]
  have hdot : dot ⟨1.5 * 9.8, 0, 0⟩ ⟨0, 0, -1⟩ = 0 := by
    norm_num [dot]
  simp only [accelErrRaw]
  rw [hgrot, hcross, hdot, Real.arccos_zero]
  dsimp only
  have hmag : Real.sqrt ((0 : ℝ) * 0 + 1.5 * 9.8 * (1.5 * 9.8) + 0 * 0) = 1.5 * 9.8 := by
    have h1 : (0 : ℝ) * 0 + 1.5 * 9.8 * (1.5 * 9.8) + 0 * 0 = 1.5 * 9.8 * (1.5 * 9.8) := by
      ring
    rw [h1, Real.sqrt_mul_self (by norm_num)]
  rw [hmag, if_pos (by norm_num : (1.5 * 9.8 : ℝ) > 0)]
  have hy : (1.5 * 9.8 : ℝ) * (Real.pi / 2 / (1.5 * 9.8)) = Real.pi / 2 := by
    field_simp
    ring
  rw [Vec3.mk.injEq]
  refine ⟨by norm_num, hy, by norm_num⟩

/-- At accel magnitude exactly 1.5*9.8, the rejection stage shrinks the
error vector (0, pi/2, 0) to y-component pi/2 - acos(9.8/(1.5*9.8)). -/
theorem rejectAccelErr_at_boundary :
    (rejectAccelErr ⟨0, Real.pi / 2, 0⟩ ⟨1.5 * 9.8, 0, 0⟩).y =
      Real.pi / 2 - Real.arccos (9.8 / (1.5 * 9.8)) := by
  simp only [rejectAccelErr]
  have hamag : Real.sqrt ((1.5 * 9.8 : ℝ) * (1.5 * 9.8) + 0 * 0 + 0 * 0) = 1.5 * 9.8 := by
    have h1 : (1.5 * 9.8 : ℝ) * (1.5 * 9.8) + 0 * 0 + 0 * 0 = 1.5 * 9.8 * (1.5 * 9.8) := by
      ring
    rw [h1, Real.sqrt_mul_self (by norm_num)]
  rw [hamag,
      if_neg (by norm_num : ¬((1.5 * 9.8 : ℝ) ≤ 9.8 ∨ (1.5 * 9.8 : ℝ) > 1.5 * 9.8))]
  have hlen : Real.sqrt ((0 : ℝ) * 0 + Real.pi / 2 * (Real.pi / 2) + 0 * 0) = Real.pi / 2 := by
    have h1 : (0 : ℝ) * 0 + Real.pi / 2 * (Real.pi / 2) + 0 * 0 = Real.pi / 2 * (Real.pi / 2) := by
      ring
    rw [h1, Real.sqrt_mul_self (by positivity)]
  rw [hlen, if_pos (by positivity : (Real.pi / 2 : ℝ) > 0)]
  dsimp only
  rw [mul_div_cancel_left₀ _ (by positivity : (Real.pi / 2 : ℝ) ≠ 0)]

/-- Counterexample to claim C2: at the identity quaternion and the accel
input (1.5*9.8, 0, 0), whose magnitude is exactly 1.5*9.8, the resulting
error vector is NOT zeroed: its y-component pi/2 - acos(2/3) is nonzero,
because the strict `>` comparison sends the boundary into the attenuation
branch, not the zeroing branch. -/
theorem C2_counterexample :
    (accelErrFinal ⟨1, 0, 0, 0⟩ ⟨1.5 * 9.8, 0, 0⟩).y ≠ 0 := by
  unfold accelErrFinal
  rw [accelErrRaw_at_boundary, rejectAccelErr_at_boundary]
  have harc : Real.arccos (9.8 / (1.5 * 9.8)) < Real.pi / 2 :=
    Real.arccos_lt_pi_div_two.mpr (by norm_num)
  intro hzero
  linarith

/-- Claim C2 amended: when the accel magnitude equals 1.5*9.8 exactly, the
strictly-greater-than comparison rejects the zeroing branch, so the boundary
falls on the ATTENUATION side: the error is shrunk subtractively with
displacement acos(9.8/(1.5*9.8)) (skipped when the error length is zero),
not zeroed. -/
theorem C2_boundary_attenuates (e a : Vec3)
    (h : Real.sqrt (a.x * a.x + a.y * a.y + a.z * a.z) = 1.5 * 9.8) :
    rejectAccelErr e a =
      if Real.sqrt (e.x * e.x + e.y * e.y + e.z * e.z) > 0 then
        ⟨e.x - e.x * Real.arccos (9.8 / (1.5 * 9.8)) /
           Real.sqrt (e.x * e.x + e.y * e.y + e.z * e.z),
         e.y - e.y * Real.arccos (9.8 / (1.5 * 9.8)) /
           Real.sqrt (e.x * e.x + e.y * e.y + e.z * e.z),
         e.z - e.z * Real.arccos (9.8 / (1.5 * 9.8)) /
           Real.sqrt (e.x * e.x + e.y * e.y + e.z * e.z)⟩
      else e := by
  unfold rejectAccelErr
  rw [h, if_neg (by norm_num : ¬((1.5 * 9.8 : ℝ) ≤ 9.8 ∨ (1.5 * 9.8 : ℝ) > 1.5 * 9.8))]

/-- Witness for the amended C2 at a concrete boundary input. -/
theorem C2_boundary_attenuates_witness :
    rejectAccelErr ⟨0, 1, 0⟩ ⟨1.5 * 9.8, 0, 0⟩ =
      if Real.sqrt ((0 : ℝ) * 0 + 1 * 1 + 0 * 0) > 0 then
        (⟨0 - 0 * Real.arccos (9.8 / (1.5 * 9.8)) / Real.sqrt ((0 : ℝ) * 0 + 1 * 1 + 0 * 0),
          1 - 1 * Real.arccos (9.8 / (1.5 * 9.8)) / Real.sqrt ((0 : ℝ) * 0 + 1 * 1 + 0 * 0),
          0 - 0 * Real.arccos (9.8 / (1.5 * 9.8)) / Real.sqrt ((0 : ℝ) * 0 + 1 * 1 + 0 * 0)⟩ : Vec3)
      else ⟨0, 1, 0⟩ :=
  C2_boundary_attenuates ⟨0, 1, 0⟩ ⟨1.5 * 9.8, 0, 0⟩ (by
    show Real.sqrt (1.5 * 9.8 * (1.5 * 9.8) + 0 * 0 + 0 * 0) = 1.5 * 9.8
    have h1 : (1.5 * 9.8 : ℝ) * (1.5 * 9.8) + 0 * 0 + 0 * 0 = 1.5 * 9.8 * (1.5 * 9.8) := by
      ring
    rw [h1, Real.sqrt_mul_self (by norm_num)])

/-- Counterexample to claim C9: with a 90-degree Z rotation and accel bias
(1, 0, 0), feeding a zero FIFO sample, the published accel X is
(0 - 1) * 0.004 * 9.81 (bias applied to the rotated value), whereas the
claimed order (rotation acting on bias-corrected, scaled values) would give
X = 0; the two disagree. -/
theorem C9_counterexample :
    (sensedAccels stR [d0]).x ≠ (specOrderAccels stR [d0]).x := by
  simp [sensedAccels, specOrderAccels, rotatedAccel, rot_mult, avgAccel, dot,
        drainLoop, stR, st0, rz90, d0]
  norm_num

/-- Claim C9 amended: when rotation is enabled, the board rotation is applied
FIRST, to the raw averaged accelerometer counts; bias subtraction and the
0.004 * 9.81 scaling are then applied to the rotated components (and the
gyro-bias correction is added to the gyros afterwards). -/
theorem C9_rotation_first (st : AttitudeState) (g : GyroSample)
    (d : Adxl345Data) (rest : List Adxl345Data) (h : st.rotate = true) :
    (updateSensors st (some g) (d :: rest)).1.map AttitudeRawData.accels =
      .ok ⟨((rot_mult st.R (avgAccel (d :: rest))).x - (st.accelbias0 : ℝ)) * 0.004 * 9.81,
           ((rot_mult st.R (avgAccel (d :: rest))).y - (st.accelbias1 : ℝ)) * 0.004 * 9.81,
           ((rot_mult st.R (avgAccel (d :: rest))).z - (st.accelbias2 : ℝ)) * 0.004 * 9.81⟩ := by
  simp [updateSensors, sensedAccels, rotatedAccel, h, Except.map]

/-- Witness for the amended C9 at a concrete rotated state. -/
theorem C9_rotation_first_witness :
    (updateSensors stR (some g0) [d0]).1.map AttitudeRawData.accels =
      .ok ⟨((rot_mult stR.R (avgAccel [d0])).x - (stR.accelbias0 : ℝ)) * 0.004 * 9.81,
           ((rot_mult stR.R (avgAccel [d0])).y - (stR.accelbias1 : ℝ)) * 0.004 * 9.81,
           ((rot_mult stR.R (avgAccel [d0])).z - (stR.accelbias2 : ℝ)) * 0.004 * 9.81⟩ :=
  C9_rotation_first stR g0 d0 [] rfl

end Attitude
